import Mathlib

/-!
Verification of the AQI monitoring/alerting engine (`src/aqimonitor.py`,
class `AQIMonitor`) against its natural-language specification.

The embedding mirrors the Python source:
* AQI index values are integers (the source produces them via `random.randint`
  and compares them with integer thresholds and breakpoints).
* Timestamps are whole seconds (`Nat`); Python's `timedelta.seconds`
  attribute is the day-remainder of the elapsed time, embedded as
  `timedeltaSeconds`.
* Python dicts keyed by location name are insertion-ordered association
  lists (`dictGet` / `dictSet`).
* The reading fetch (`fetch_aqi_data`) and the notification sink
  (`TelegramNotifier.send_aqi_alert`) are oracles passed as functions;
  `none` / `false` model their failure outcomes.
-/

/-- A monitored location, as stored by `AQIMonitor.add_location`:
latitude, longitude and the alert threshold. Coordinates are floats in the
source; they are carried opaquely (never computed with), embedded as `Rat`. -/
structure Location where
  lat : Rat
  lon : Rat
  alert_threshold : Int
deriving DecidableEq, Repr

/-- Category entry for the range [0,50] of the source table. -/
def catGood : String × String :=
  ("Good", "Air quality is satisfactory. Outdoor activities are safe.")

/-- Category entry for [51,100]. -/
def catModerate : String × String :=
  ("Moderate", "Air quality is acceptable for most people.")

/-- Category entry for [101,150]. -/
def catSensitive : String × String :=
  ("Unhealthy for Sensitive", "Sensitive individuals should limit outdoor activities.")

/-- Category entry for [151,200]. -/
def catUnhealthy : String × String :=
  ("Unhealthy", "Everyone should limit prolonged outdoor activities.")

/-- Category entry for [201,300]. -/
def catVeryUnhealthy : String × String :=
  ("Very Unhealthy", "Avoid outdoor activities. Stay indoors.")

/-- Category entry for [301,500]. -/
def catHazardous : String × String :=
  ("Hazardous", "Emergency conditions. Everyone should stay indoors.")

/-- Fallback returned by `get_aqi_category` when no range matches. -/
def unknownCategory : String × String :=
  ("Unknown", "Unable to determine air quality status.")

/-- `AQIMonitor.aqi_categories`: the ordered breakpoint table
`{(min, max): (category, recommendation)}` from the source constructor. -/
def aqiCategories : List ((Int × Int) × String × String) :=
  [((0, 50), catGood),
   ((51, 100), catModerate),
   ((101, 150), catSensitive),
   ((151, 200), catUnhealthy),
   ((201, 300), catVeryUnhealthy),
   ((301, 500), catHazardous)]

/-- The loop of `AQIMonitor.get_aqi_category`: scan the table in order and
return the first `(category, recommendation)` whose inclusive range contains
the value. -/
def lookupCategory : List ((Int × Int) × String × String) → Int → Option (String × String)
  | [], _ => none
  | ((lo, hi), cr) :: rest, aqi =>
      if lo ≤ aqi ∧ aqi ≤ hi then some cr else lookupCategory rest aqi

/-- `AQIMonitor.get_aqi_category`: table scan with the "Unknown" fallback. -/
def get_aqi_category (aqi : Int) : String × String :=
  (lookupCategory aqiCategories aqi).getD unknownCategory

/-- The six category labels of the table, in tier order. -/
def sixLabels : List String :=
  ["Good", "Moderate", "Unhealthy for Sensitive", "Unhealthy",
   "Very Unhealthy", "Hazardous"]

/-- Tier ordinal of a category label: 0..5 for the table's six labels in
order, 6 for anything else (in particular "Unknown"). -/
def tierOf (label : String) : Nat :=
  if label = "Good" then 0
  else if label = "Moderate" then 1
  else if label = "Unhealthy for Sensitive" then 2
  else if label = "Unhealthy" then 3
  else if label = "Very Unhealthy" then 4
  else if label = "Hazardous" then 5
  else 6

/-- Python dict lookup `d.get(key)` on an insertion-ordered assoc list. -/
def dictGet {α : Type} : List (String × α) → String → Option α
  | [], _ => none
  | (k, v) :: rest, key => if k = key then some v else dictGet rest key

/-- Python dict assignment `d[key] = v`: overwrite in place if the key is
present, else append at the end. -/
def dictSet {α : Type} : List (String × α) → String → α → List (String × α)
  | [], key, v => [(key, v)]
  | (k, w) :: rest, key, v =>
      if k = key then (k, v) :: rest else (k, w) :: dictSet rest key v

/-- Python `(datetime.now() - last_alert).seconds` for timestamps in whole
seconds: `timedelta.seconds` is the elapsed time normalised into a day
remainder in [0, 86400). -/
def timedeltaSeconds (now last : Nat) : Int :=
  ((now : Int) - (last : Int)) % 86400

/-- The alert gate of `check_locations` (source line 366-369):
`last_alert = self.last_alerts.get(location_name)` followed by
`if not last_alert or (datetime.now() - last_alert).seconds > 3600`. -/
def shouldAlert (last_alerts : List (String × Nat)) (name : String) (now : Nat) : Bool :=
  match dictGet last_alerts name with
  | none => true
  | some last => decide (3600 < timedeltaSeconds now last)

/-- Outcome of processing one location inside `check_locations`:
whether the sink was invoked, whether it confirmed delivery, and the
resulting per-location last-alert state. -/
structure LocResult where
  attempted : Bool
  delivered : Bool
  last_alerts : List (String × Nat)
deriving DecidableEq, Repr

/-- The per-location body of `AQIMonitor.check_locations` (lines 356-378):
fetch, classify, compare against the threshold, consult the gate, attempt
delivery, and record the timestamp only on confirmed delivery. -/
def processLocation (fetch : Rat → Rat → Option Int)
    (notify : String → Int → String × String → Bool)
    (now : Nat) (last_alerts : List (String × Nat))
    (entry : String × Location) : LocResult :=
  match fetch entry.2.lat entry.2.lon with
  | none => ⟨false, false, last_alerts⟩
  | some aqi =>
      if entry.2.alert_threshold ≤ aqi then
        if shouldAlert last_alerts entry.1 now then
          if notify entry.1 aqi (get_aqi_category aqi) then
            ⟨true, true, dictSet last_alerts entry.1 now⟩
          else
            ⟨true, false, last_alerts⟩
        else ⟨false, false, last_alerts⟩
      else ⟨false, false, last_alerts⟩

/-- `AQIMonitor.check_locations`: process every registered location in
order, threading the last-alert state; returns the final state and the
per-location log of whether an alert delivery was attempted. -/
def check_locations (fetch : Rat → Rat → Option Int)
    (notify : String → Int → String × String → Bool) (now : Nat) :
    List (String × Location) → List (String × Nat) →
    List (String × Nat) × List (String × Bool)
  | [], la => (la, [])
  | entry :: rest, la =>
      let r := processLocation fetch notify now la entry
      let res := check_locations fetch notify now rest r.last_alerts
      (res.1, (entry.1, r.attempted) :: res.2)

/-- Daily summary for mean ≤ 50 (source line 405). -/
def summaryGood : String :=
  "Good air quality throughout the day. Safe for all outdoor activities."

/-- Daily summary for mean ≤ 100 (line 407). -/
def summaryModerate : String :=
  "Moderate air quality. Most people can enjoy outdoor activities."

/-- Daily summary for mean ≤ 150 (line 409). -/
def summarySensitive : String :=
  "Unhealthy for sensitive groups. Consider limiting outdoor exposure."

/-- Daily summary for any larger mean (line 411). -/
def summaryPoor : String :=
  "Poor air quality. Limit outdoor activities and consider wearing masks."

/-- The summary bucketing of `send_daily_reports` (lines 404-411),
with inclusive boundaries. -/
def dailySummary (avg : Rat) : String :=
  if avg ≤ 50 then summaryGood
  else if avg ≤ 100 then summaryModerate
  else if avg ≤ 150 then summarySensitive
  else summaryPoor

/-- The per-location computation of `send_daily_reports` given the two
fetched readings (lines 396-411): the arithmetic mean
`(morning_aqi + evening_aqi) / 2` (exact float division by 2) and the
derived summary. -/
def daily_report_body (morning evening : Int) : Rat × String :=
  ((((morning : Rat) + (evening : Rat)) / 2),
   dailySummary (((morning : Rat) + (evening : Rat)) / 2))

/-- `AQIMonitor.add_location` (lines 283-298): unconditional upsert of the
location under its name; the threshold parameter defaults to 100 and is
stored as given, with no validation of threshold or coordinates. -/
def add_location (locations : List (String × Location)) (name : String)
    (lat lon : Rat) (alert_threshold : Int := 100) : List (String × Location) :=
  dictSet locations name ⟨lat, lon, alert_threshold⟩

/-- A recurring job registered with the `schedule` module. -/
inductive Job where
  | checkPass : Nat → Job
  | reportPass : String → Job
deriving DecidableEq, Repr

/-- The three recurring jobs registered by one `start_monitoring` call
(lines 436-440): a check-pass every 30 minutes and report-passes at
08:00 and 20:00. -/
def scheduledJobs : List Job :=
  [Job.checkPass 30, Job.reportPass "08:00", Job.reportPass "20:00"]

/-- The mutable state of an `AQIMonitor` instance together with the global
`schedule` job list it registers into. -/
structure EngineState where
  locations : List (String × Location)
  last_alerts : List (String × Nat)
  running : Bool
  jobs : List Job
deriving DecidableEq, Repr

/-- `AQIMonitor.start_monitoring` (lines 427-454): if no locations are
configured, log an error and return with the state untouched; otherwise set
the running flag, register the three recurring jobs (appending to whatever
is already registered), and run one immediate check-pass. -/
def start_monitoring (fetch : Rat → Rat → Option Int)
    (notify : String → Int → String × String → Bool)
    (now : Nat) (s : EngineState) : EngineState :=
  if s.locations = [] then s
  else
    { s with
      running := true,
      jobs := s.jobs ++ scheduledJobs,
      last_alerts := (check_locations fetch notify now s.locations s.last_alerts).1 }

/-- `AQIMonitor.stop_monitoring` (lines 456-460): clear the running flag and
all scheduled jobs. -/
def stop_monitoring (s : EngineState) : EngineState :=
  { s with running := false, jobs := [] }

/-- A notification sink that always confirms delivery. -/
def notifyOk : String → Int → String × String → Bool := fun _ _ _ => true

/-- A notification sink that always reports failure. -/
def notifyFail : String → Int → String × String → Bool := fun _ _ _ => false

/-- A metric source that always returns an AQI reading of 150. -/
def fetch150 : Rat → Rat → Option Int := fun _ _ => some 150

/-- A metric source that fails at latitude 1 and returns 150 elsewhere. -/
def fetchFailAt1 : Rat → Rat → Option Int :=
  fun lat _ => if lat = 1 then none else some 150

/-- Scenario location at latitude 1 (where `fetchFailAt1` fails). -/
def locA : Location := ⟨1, 1, 100⟩

/-- Scenario location at latitude 2 (fetch succeeds, reading 150 breaches
the threshold 100). -/
def locB : Location := ⟨2, 2, 100⟩

/-- Scenario engine state: one registered location, nothing alerted yet,
stopped, no jobs. -/
def engine0 : EngineState := ⟨[("A", locA)], [], false, []⟩

/-- Scenario engine state with an empty location registry. -/
def engineEmpty : EngineState := ⟨[], [], false, []⟩

/-- Closed form of the classifier's table scan: the first matching inclusive
range wins, with the "Unknown" fallback when no range matches. -/
theorem get_aqi_category_eq (v : Int) :
    get_aqi_category v =
      if 0 ≤ v ∧ v ≤ 50 then catGood
      else if 51 ≤ v ∧ v ≤ 100 then catModerate
      else if 101 ≤ v ∧ v ≤ 150 then catSensitive
      else if 151 ≤ v ∧ v ≤ 200 then catUnhealthy
      else if 201 ≤ v ∧ v ≤ 300 then catVeryUnhealthy
      else if 301 ≤ v ∧ v ≤ 500 then catHazardous
      else unknownCategory := by
  simp only [get_aqi_category, aqiCategories, lookupCategory]
  split_ifs <;> rfl

/-- Looking up the key just written by `dictSet` returns the new value. -/
theorem dictGet_dictSet_self {α : Type} (l : List (String × α)) (k : String) (v : α) :
    dictGet (dictSet l k v) k = some v := by
  induction l with
  | nil => simp [dictGet, dictSet]
  | cons p rest ih =>
      obtain ⟨k1, v1⟩ := p
      by_cases h : k1 = k
      · subst h
        simp [dictGet, dictSet]
      · simp [dictGet, dictSet, h, ih]

/-- `dictSet` leaves every other key's binding unchanged. -/
theorem dictGet_dictSet_ne {α : Type} (l : List (String × α)) (k other : String)
    (v : α) (h : other ≠ k) :
    dictGet (dictSet l k v) other = dictGet l other := by
  induction l with
  | nil =>
      simp only [dictSet, dictGet]
      rw [if_neg (fun hk => h hk.symm)]
  | cons p rest ih =>
      obtain ⟨k1, v1⟩ := p
      by_cases h1 : k1 = k
      · subst h1
        simp only [dictSet, if_pos rfl, dictGet]
        rw [if_neg (fun hk => h hk.symm), if_neg (fun hk => h hk.symm)]
      · simp only [dictSet, if_neg h1, dictGet]
        by_cases h2 : k1 = other
        · rw [if_pos h2, if_pos h2]
        · rw [if_neg h2, if_neg h2, ih]

/-- Tier of the classifier's output on [0,500], as a piecewise function of
the value. -/
theorem tierOf_get (v : Int) (h0 : 0 ≤ v) (h1 : v ≤ 500) :
    tierOf (get_aqi_category v).1 =
      if v ≤ 50 then 0
      else if v ≤ 100 then 1
      else if v ≤ 150 then 2
      else if v ≤ 200 then 3
      else if v ≤ 300 then 4
      else 5 := by
  rw [get_aqi_category_eq]
  split_ifs <;> first | decide | omega

/-- C1: the alert gate on elapsed times beyond a day. The source computes
`(datetime.now() - last_alert).seconds > 3600`; `timedelta.seconds` is the
day-remainder, so with a last alert at t = 0 and now t = 90000 s (25 hours
later, elapsed 90000 > 3600) the gate still refuses the alert. -/
theorem c1_cooldown_wraparound :
    shouldAlert [("A", 0)] "A" 90000 = false ∧ (3600 : Int) < 90000 - 0 := by
  decide

/-- C2 counterexample: `classify(501)` is not Hazardous — the table scan
falls through to the "Unknown" fallback, so there is no clamp-up. -/
theorem c2_classify_501_not_hazardous :
    (get_aqi_category 501).1 ≠ "Hazardous" ∧ get_aqi_category 501 = unknownCategory := by
  decide

/-- C2 (amended): every value outside the table — strictly above 500 as
well as negative — yields the Unknown category; there is no clamp-up of the
top boundary. -/
theorem c2_out_of_range_unknown (v : Int) :
    (500 < v → get_aqi_category v = unknownCategory)
    ∧ (v < 0 → get_aqi_category v = unknownCategory) := by
  rw [get_aqi_category_eq]
  constructor <;> intro h <;> (split_ifs <;> first | rfl | omega)

/-- C2 witness: the amended theorem evaluated at 501 and -1. -/
theorem c2_out_of_range_unknown_witness :
    ((500 : Int) < 501 ∧ get_aqi_category 501 = unknownCategory)
    ∧ ((-1 : Int) < 0 ∧ get_aqi_category (-1) = unknownCategory) :=
  ⟨⟨by decide, (c2_out_of_range_unknown 501).1 (by decide)⟩,
   ⟨by decide, (c2_out_of_range_unknown (-1)).2 (by decide)⟩⟩

/-- C3: on [0,500] the classifier returns one of the six table labels,
exactly one breakpoint range matches (the ranges are disjoint and
exhaustive over [0,500]), and the tier is monotonically non-decreasing. -/
theorem c3_classifier_exhaustive_monotone (v w : Int)
    (h0 : 0 ≤ v) (h1 : v ≤ 500) (h2 : v ≤ w) (h3 : w ≤ 500) :
    (get_aqi_category v).1 ∈ sixLabels
    ∧ (aqiCategories.filter (fun r => decide (r.1.1 ≤ v ∧ v ≤ r.1.2))).length = 1
    ∧ tierOf (get_aqi_category v).1 ≤ tierOf (get_aqi_category w).1 := by
  refine ⟨?_, ?_, ?_⟩
  · rw [get_aqi_category_eq]
    split_ifs <;> first | decide | omega
  · simp only [aqiCategories, List.filter_cons, List.filter_nil, decide_eq_true_eq]
    split_ifs <;> first | rfl | omega
  · rw [tierOf_get v h0 h1, tierOf_get w (le_trans h0 h2) h3]
    split_ifs <;> omega

/-- C3 witness: the theorem evaluated at v = 42, w = 321. -/
theorem c3_classifier_exhaustive_monotone_witness :
    ((0 : Int) ≤ 42 ∧ (42 : Int) ≤ 500 ∧ (42 : Int) ≤ 321 ∧ (321 : Int) ≤ 500)
    ∧ ((get_aqi_category 42).1 ∈ sixLabels
       ∧ (aqiCategories.filter (fun r => decide (r.1.1 ≤ (42 : Int) ∧ (42 : Int) ≤ r.1.2))).length = 1
       ∧ tierOf (get_aqi_category 42).1 ≤ tierOf (get_aqi_category 321).1) :=
  ⟨by decide,
   c3_classifier_exhaustive_monotone 42 321 (by decide) (by decide) (by decide) (by decide)⟩

/-- C4: the failing scenario for retry-after-failed-delivery. With a prior
alert at t = 0, a breach at t = 86399 is attempted and the sink fails, so
the cooldown state is correctly left unchanged; but the retry two seconds
later at t = 86401 is suppressed, because `timedelta.seconds` wraps to 1. -/
theorem c4_failed_delivery_not_retried :
    (processLocation fetch150 notifyFail 86399 [("A", 0)] ("A", locA)).attempted = true
    ∧ (processLocation fetch150 notifyFail 86399 [("A", 0)] ("A", locA)).last_alerts = [("A", 0)]
    ∧ (processLocation fetch150 notifyFail 86401 [("A", 0)] ("A", locA)).attempted = false := by
  decide

/-- C5: a fetch failure for the head location leaves the rest of the pass
exactly as if that location were absent (state and log of the remaining
locations unchanged), and every registered location gets an entry in the
pass's log. -/
theorem c5_fetch_failure_isolated (fetch : Rat → Rat → Option Int)
    (notify : String → Int → String × String → Bool) (now : Nat)
    (name : String) (loc : Location) (rest : List (String × Location))
    (la : List (String × Nat))
    (h : fetch loc.lat loc.lon = none) :
    check_locations fetch notify now ((name, loc) :: rest) la
      = ((check_locations fetch notify now rest la).1,
         (name, false) :: (check_locations fetch notify now rest la).2)
    ∧ ∀ (locs : List (String × Location)) (la2 : List (String × Nat)),
        (check_locations fetch notify now locs la2).2.length = locs.length := by
  constructor
  · simp [check_locations, processLocation, h]
  · intro locs
    induction locs with
    | nil => intro la2; rfl
    | cons e es ih =>
        intro la2
        simp only [check_locations, List.length_cons, ih]

/-- C5 witness: the spec's scenario — location A's fetch fails, location B
breaches — instantiated concretely; B's alert is still attempted. -/
theorem c5_fetch_failure_isolated_witness :
    fetchFailAt1 locA.lat locA.lon = none
    ∧ (check_locations fetchFailAt1 notifyOk 0 [("A", locA), ("B", locB)] []
        = ((check_locations fetchFailAt1 notifyOk 0 [("B", locB)] []).1,
           ("A", false) :: (check_locations fetchFailAt1 notifyOk 0 [("B", locB)] []).2)
       ∧ ∀ (locs : List (String × Location)) (la2 : List (String × Nat)),
           (check_locations fetchFailAt1 notifyOk 0 locs la2).2.length = locs.length)
    ∧ (check_locations fetchFailAt1 notifyOk 0 [("B", locB)] []).2 = [("B", true)] :=
  ⟨by decide,
   c5_fetch_failure_isolated fetchFailAt1 notifyOk 0 "A" locA [("B", locB)] [] (by decide),
   by decide⟩

/-- C6: when the fetch yields a reading, an alert delivery is attempted for
the location exactly when the reading meets or exceeds the configured
threshold and the gate permits; in particular a reading strictly below the
threshold never causes an attempt. -/
theorem c6_alert_iff_breach_and_gate (fetch : Rat → Rat → Option Int)
    (notify : String → Int → String × String → Bool) (now : Nat)
    (name : String) (loc : Location) (la : List (String × Nat)) (aqi : Int)
    (h : fetch loc.lat loc.lon = some aqi) :
    (processLocation fetch notify now la (name, loc)).attempted = true
      ↔ (loc.alert_threshold ≤ aqi ∧ shouldAlert la name now = true) := by
  by_cases h1 : loc.alert_threshold ≤ aqi <;>
    by_cases h2 : shouldAlert la name now = true <;>
    by_cases h3 : notify name aqi (get_aqi_category aqi) = true <;>
    simp [processLocation, h, h1, h2, h3]

/-- C6 witness: the theorem at location B with reading 150, threshold 100
and an empty gate state. -/
theorem c6_alert_iff_breach_and_gate_witness :
    fetch150 locB.lat locB.lon = some 150
    ∧ ((processLocation fetch150 notifyOk 0 [] ("B", locB)).attempted = true
        ↔ (locB.alert_threshold ≤ 150 ∧ shouldAlert [] "B" 0 = true)) :=
  ⟨by decide, c6_alert_iff_breach_and_gate fetch150 notifyOk 0 "B" locB [] 150 (by decide)⟩

/-- C7: the daily report carries the arithmetic mean of the morning and
evening readings, and the summary is bucketed by that mean with inclusive
boundaries at 50, 100 and 150. -/
theorem c7_report_mean_buckets (m e : Int) :
    (daily_report_body m e).1 = ((m : Rat) + (e : Rat)) / 2
    ∧ ((daily_report_body m e).1 ≤ 50 → (daily_report_body m e).2 = summaryGood)
    ∧ (50 < (daily_report_body m e).1 → (daily_report_body m e).1 ≤ 100 →
        (daily_report_body m e).2 = summaryModerate)
    ∧ (100 < (daily_report_body m e).1 → (daily_report_body m e).1 ≤ 150 →
        (daily_report_body m e).2 = summarySensitive)
    ∧ (150 < (daily_report_body m e).1 → (daily_report_body m e).2 = summaryPoor) := by
  refine ⟨rfl, ?_, ?_, ?_, ?_⟩ <;>
    simp only [daily_report_body, dailySummary] <;>
    intros <;>
    (split_ifs <;> first | rfl | linarith)

/-- C7 witness: morning 40 and evening 60 give mean 50 and the
"good throughout" bucket (boundary at ≤ 50 inclusive). -/
theorem c7_report_mean_buckets_witness :
    (daily_report_body 40 60).1 = 50 ∧ (daily_report_body 40 60).2 = summaryGood := by
  have h := c7_report_mean_buckets 40 60
  have h1 : (daily_report_body 40 60).1 = 50 := by
    rw [h.1]; norm_num
  exact ⟨h1, h.2.1 h1.le⟩

/-- C8 counterexample: registration with a negative threshold does not fail
and does change the registry — the source stores any threshold as given. -/
theorem c8_negative_threshold_accepted :
    add_location [] "X" 0 0 (-5) = [("X", ⟨0, 0, -5⟩)]
    ∧ add_location [] "X" 0 0 (-5) ≠ ([] : List (String × Location)) := by
  decide

/-- C8 (amended): registration upserts the location under its name with no
validation at all — any integer threshold (negative included) and any
coordinates are stored as given, other names are untouched, and the
threshold defaults to 100 when omitted. -/
theorem c8_register_upsert_no_validation (locations : List (String × Location))
    (name other : String) (lat lon : Rat) (t : Int) (h : other ≠ name) :
    dictGet (add_location locations name lat lon t) name = some ⟨lat, lon, t⟩
    ∧ dictGet (add_location locations name lat lon t) other = dictGet locations other
    ∧ dictGet (add_location locations name lat lon) name = some ⟨lat, lon, 100⟩ :=
  ⟨dictGet_dictSet_self locations name ⟨lat, lon, t⟩,
   dictGet_dictSet_ne locations name other ⟨lat, lon, t⟩ h,
   dictGet_dictSet_self locations name ⟨lat, lon, 100⟩⟩

/-- C8 witness: the amended theorem on an empty registry with threshold -5. -/
theorem c8_register_upsert_no_validation_witness :
    ("Y" ≠ "X")
    ∧ (dictGet (add_location [] "X" 1 2 (-5)) "X" = some ⟨1, 2, -5⟩
       ∧ dictGet (add_location [] "X" 1 2 (-5)) "Y" = dictGet ([] : List (String × Location)) "Y"
       ∧ dictGet (add_location [] "X" 1 2) "X" = some ⟨1, 2, 100⟩) :=
  ⟨by decide, c8_register_upsert_no_validation [] "X" "Y" 1 2 (-5) (by decide)⟩

/-- C9 counterexample: calling `start_monitoring` twice registers the three
recurring jobs twice — the second start while running is neither an error
nor a no-op. -/
theorem c9_double_start_duplicates_jobs :
    (start_monitoring fetch150 notifyFail 0
        (start_monitoring fetch150 notifyFail 0 engine0)).jobs
      = scheduledJobs ++ scheduledJobs
    ∧ scheduledJobs ++ scheduledJobs ≠ scheduledJobs := by
  decide

/-- C9 (amended): with a non-empty registry, a second `start_monitoring`
call leaves the engine running and appends a second copy of the recurring
jobs to the schedule. -/
theorem c9_second_start_appends_jobs (fetch : Rat → Rat → Option Int)
    (notify : String → Int → String × String → Bool)
    (now now2 : Nat) (s : EngineState) (h : s.locations ≠ []) :
    (start_monitoring fetch notify now2 (start_monitoring fetch notify now s)).running = true
    ∧ (start_monitoring fetch notify now2 (start_monitoring fetch notify now s)).jobs
        = s.jobs ++ scheduledJobs ++ scheduledJobs := by
  simp [start_monitoring, h]

/-- C9 witness: the amended theorem on the one-location scenario state. -/
theorem c9_second_start_appends_jobs_witness :
    engine0.locations ≠ []
    ∧ ((start_monitoring fetch150 notifyOk 5 (start_monitoring fetch150 notifyOk 3 engine0)).running = true
       ∧ (start_monitoring fetch150 notifyOk 5 (start_monitoring fetch150 notifyOk 3 engine0)).jobs
           = engine0.jobs ++ scheduledJobs ++ scheduledJobs) :=
  ⟨by decide, c9_second_start_appends_jobs fetch150 notifyOk 3 5 engine0 (by decide)⟩

/-- C10: starting with an empty location registry is a rejected no-op — the
source returns before touching the running flag, the schedule or the
last-alert state, leaving the engine state exactly as it was. -/
theorem c10_empty_registry_noop (fetch : Rat → Rat → Option Int)
    (notify : String → Int → String × String → Bool)
    (now : Nat) (s : EngineState) (h : s.locations = []) :
    start_monitoring fetch notify now s = s := by
  simp [start_monitoring, h]

/-- C10 witness: the theorem on the empty-registry scenario state. -/
theorem c10_empty_registry_noop_witness :
    engineEmpty.locations = []
    ∧ start_monitoring fetch150 notifyOk 0 engineEmpty = engineEmpty :=
  ⟨rfl, c10_empty_registry_noop fetch150 notifyOk 0 engineEmpty rfl⟩
